import Mathlib

/-!
Verification of the core of `Claude-Code-Usage-Monitor` against its
natural-language specification.

Shallow embedding of the two source files:

* `src/claude_monitor/data/calibration.py` — the `CalibrationStore`
  (bounded persisted history of prediction-accuracy samples and the derived
  correction multiplier);
* `src/claude_monitor/ui/session_display.py` — the `SessionDisplayComponent`
  (wide progress bars, predicted-usage line, official usage windows,
  reset-time formatting, notifications block).

Modelling conventions:

* Python floats are modelled as exact rationals (`ℚ`); machine rounding of
  IEEE doubles is outside the model, but every property proved here is about
  the exact arithmetic structure of the code.
* Stateful objects are modelled by explicit state passing: the store is a
  structure holding the in-memory sample list and the durable file contents,
  and each method is a total function from states to states.
* Exception-swallowing I/O (`_save`, `_load`) is modelled by an explicit
  outcome: the save success flag and a `FileContent` value that can be
  `missing` or `corrupt`.
* External collaborators declared out of scope by the repository
  (`percentage` from `utils.time_utils`, `_calculate_filled_segments` and
  `_render_bar` of the progress-bar primitives, `get_cost_style`, theming,
  the clock and ISO-8601 parsing) are taken as parameters or pre-parsed
  inputs, never given behaviour of their own.
-/

/-! ## Calibration store (`data/calibration.py`) -/

/-- One calibration data point, as stored in the JSON history
(`{"timestamp": ..., "estimated_pct": ..., "actual_pct": ...}`). -/
structure Sample where
  timestamp : String
  estimated_pct : ℚ
  actual_pct : ℚ
deriving DecidableEq, Repr

/-- Contents of the durable calibration file as observed by `_load`:
the file may be absent, unreadable/malformed/non-list (all collapsed into
`corrupt`, since `_load` treats every failure alike), or a stored list. -/
inductive FileContent where
  | missing
  | corrupt
  | stored (l : List Sample)
deriving DecidableEq, Repr

/-- State of a `CalibrationStore`: the in-memory `_samples` list and the
durable file at `~/.claude-monitor/calibration.json` (the path itself plays
no role in the claims). -/
structure CalibrationStore where
  samples : List Sample
  file : FileContent
deriving DecidableEq, Repr

/-- `CalibrationStore.MAX_SAMPLES = 20`. -/
def MAX_SAMPLES : ℕ := 20

/-- Round to the nearest integer, ties to even — the rounding mode of
Python's built-in `round`. -/
def roundHalfEven (q : ℚ) : ℤ :=
  let f := ⌊q⌋
  if q - f < 1/2 then f
  else if 1/2 < q - f then f + 1
  else if f % 2 = 0 then f else f + 1

/-- Python `round(x, 2)`: round to two decimal places, ties to even.
(`round` in the source acts on floats; here on exact rationals.) -/
def round2 (x : ℚ) : ℚ := (roundHalfEven (x * 100) : ℚ) / 100

/-- The Python slice `xs[-n:]`: the suffix of the most recent `n` elements
(the whole list when it is shorter than `n`). -/
def lastN (n : ℕ) (xs : List α) : List α := xs.drop (xs.length - n)

/-- `_load`: if the file exists its parsed contents replace the in-memory
list (any parse failure or a non-list top level yields `[]`); when the file
is missing `_load` does nothing at all, keeping the in-memory samples. -/
def CalibrationStore.load (st : CalibrationStore) : CalibrationStore :=
  match st.file with
  | .missing => st
  | .corrupt => { st with samples := [] }
  | .stored l => { st with samples := l }

/-- `add_sample(estimated, actual)`: append a sample stamped with the current
UTC instant (passed in here, the clock being external), rounding both
percentages to 2 decimals; keep only the last `MAX_SAMPLES` entries; then
`_save`. `_save` catches every exception and only logs it, so the method is
total: on save success the file holds the new history, on failure the file is
untouched and only the in-memory list changed. -/
def CalibrationStore.add_sample (st : CalibrationStore) (timestamp : String)
    (estimated actual : ℚ) (save_ok : Bool) : CalibrationStore :=
  let samples := st.samples ++ [⟨timestamp, round2 estimated, round2 actual⟩]
  let samples := lastN MAX_SAMPLES samples
  if save_ok then ⟨samples, .stored samples⟩ else ⟨samples, st.file⟩

/-- `get_multiplier()`: reload from disk, then return the mean of
`actual_pct / estimated_pct` over samples with `estimated_pct > 0`,
defaulting to `1.0` for an empty history or when no sample qualifies. -/
def CalibrationStore.get_multiplier (st : CalibrationStore) : ℚ :=
  let st := st.load
  if st.samples = [] then 1
  else
    let ratios := (st.samples.filter fun s => 0 < s.estimated_pct).map
      fun s => s.actual_pct / s.estimated_pct
    if ratios = [] then 1
    else ratios.sum / (ratios.length : ℚ)

/-- The sample built by `add_sample` from one `(timestamp, estimated, actual)`
call. -/
def mkSample (i : String × ℚ × ℚ) : Sample := ⟨i.1, round2 i.2.1, round2 i.2.2⟩

/-- A freshly constructed store over a fresh config directory: `__init__`
sets `_samples = []` and `_load` finds no file. -/
def emptyStore : CalibrationStore := ⟨[], .missing⟩

/-! ### Helper lemmas about `lastN` -/

theorem lastN_length (n : ℕ) (xs : List α) :
    (lastN n xs).length = min n xs.length := by
  simp only [lastN, List.length_drop]
  omega

theorem lastN_length_le (n : ℕ) (xs : List α) : (lastN n xs).length ≤ n := by
  rw [lastN_length]; exact min_le_left _ _

theorem lastN_append_singleton (n : ℕ) (xs : List α) (s : α) :
    lastN n (lastN n xs ++ [s]) = lastN n (xs ++ [s]) := by
  simp only [lastN, List.length_append, List.length_drop, List.length_cons,
    List.length_nil]
  rcases le_or_lt xs.length n with h | h
  · have h0 : xs.length - n = 0 := by omega
    simp [h0]
  · have hsub : xs.length - (xs.length - n) = n := Nat.sub_sub_self h.le
    rw [hsub]
    have e1 : n + 1 - n = 1 := by omega
    have e2 : xs.length + 1 - n = xs.length - n + 1 := by omega
    have e3 : List.drop (xs.length - n) (xs ++ [s])
        = List.drop (xs.length - n) xs ++ [s] :=
      List.drop_append_of_le_length (by omega)
    rw [e1, e2, ← List.drop_drop, e3]

theorem lastN_nil (n : ℕ) : lastN n ([] : List α) = [] := by simp [lastN]

/-! ### The trace of repeated `add_sample` calls -/

/-- One `add_sample` step in a fold over a call trace, all saves succeeding. -/
def addStep (st : CalibrationStore) (i : String × ℚ × ℚ) : CalibrationStore :=
  st.add_sample i.1 i.2.1 i.2.2 true

theorem addStep_samples (st : CalibrationStore) (i : String × ℚ × ℚ) :
    (addStep st i).samples = lastN 20 (st.samples ++ [mkSample i]) := by
  simp [addStep, CalibrationStore.add_sample, MAX_SAMPLES, mkSample]

theorem addStep_file (st : CalibrationStore) (i : String × ℚ × ℚ) :
    (addStep st i).file = .stored ((addStep st i).samples) := by
  simp [addStep, CalibrationStore.add_sample]

theorem foldl_addStep_spec (inputs : List (String × ℚ × ℚ)) :
    ∀ (xs : List Sample) (f : FileContent),
      (inputs.foldl addStep ⟨lastN 20 xs, f⟩).samples
          = lastN 20 (xs ++ inputs.map mkSample)
        ∧ (inputs.foldl addStep ⟨lastN 20 xs, f⟩).file
          = (if inputs = [] then f
             else .stored (lastN 20 (xs ++ inputs.map mkSample))) := by
  induction inputs with
  | nil => intro xs f; simp
  | cons i is ih =>
    intro xs f
    have hstep : addStep ⟨lastN 20 xs, f⟩ i
        = ⟨lastN 20 (xs ++ [mkSample i]),
           .stored (lastN 20 (xs ++ [mkSample i]))⟩ := by
      simp [addStep, CalibrationStore.add_sample, MAX_SAMPLES, mkSample,
        lastN_append_singleton]
    have h := ih (xs ++ [mkSample i])
      (.stored (lastN 20 (xs ++ [mkSample i])))
    simp only [List.foldl_cons, hstep]
    constructor
    · rw [h.1]
      simp [List.append_assoc]
    · rw [h.2]
      by_cases his : is = []
      · subst his; simp
      · simp [his, List.append_assoc]

/-! ## Claim C1 — bounded FIFO history -/

/-- **C1.** After any sequence of `add_sample` calls on a freshly constructed
`CalibrationStore` (empty directory, all saves succeeding), the stored and
persisted history has length `min 20 (number of calls)` and consists of
exactly the most recently added samples in append (chronological) order
(`lastN 20` of the full call trace, oldest evicted first); moreover every
single `add_sample` mutation, from any state and with any save outcome,
leaves the history length ≤ 20. -/
theorem c1_bounded_fifo_history :
    (∀ inputs : List (String × ℚ × ℚ),
      (inputs.foldl addStep emptyStore).samples = lastN 20 (inputs.map mkSample)
      ∧ (inputs.foldl addStep emptyStore).samples.length = min 20 inputs.length
      ∧ (inputs.foldl addStep emptyStore).file
          = (if inputs = [] then FileContent.missing
             else .stored ((inputs.foldl addStep emptyStore).samples)))
    ∧ ∀ (st : CalibrationStore) (ts : String) (e a : ℚ) (ok : Bool),
        (st.add_sample ts e a ok).samples.length ≤ 20 := by
  constructor
  · intro inputs
    have h := foldl_addStep_spec inputs [] FileContent.missing
    have hempty : emptyStore = ⟨lastN 20 [], FileContent.missing⟩ := by
      simp [emptyStore, lastN_nil]
    rw [hempty]
    refine ⟨by simpa using h.1, ?_, ?_⟩
    · rw [h.1]
      simp [lastN_length]
    · rw [h.2, h.1]
  · intro st ts e a ok
    have : (st.add_sample ts e a ok).samples
        = lastN MAX_SAMPLES (st.samples ++ [⟨ts, round2 e, round2 a⟩]) := by
      unfold CalibrationStore.add_sample
      cases ok <;> simp
    rw [this]
    exact lastN_length_le _ _

/-! ## Claim C2 — the multiplier is the mean over positive estimates -/

/-- **C2.** `get_multiplier()` returns the arithmetic mean of
`actual_pct / estimated_pct` over exactly the stored samples whose
`estimated_pct` is strictly positive, and returns exactly `1.0` when the
store is empty or no stored sample has a positive estimate; in particular on
stored samples `[(est = 0, act = 5), (est = 10, act = 12)]` it returns
`1.2`. -/
theorem c2_multiplier_is_mean_over_positive_estimates :
    (∀ l : List Sample,
      CalibrationStore.get_multiplier ⟨l, .stored l⟩ =
        if (l.filter fun s => 0 < s.estimated_pct) = [] then 1
        else ((l.filter fun s => 0 < s.estimated_pct).map
                fun s => s.actual_pct / s.estimated_pct).sum
              / (((l.filter fun s => 0 < s.estimated_pct).length : ℚ)))
    ∧ CalibrationStore.get_multiplier
        ⟨[⟨"t0", 0, 5⟩, ⟨"t1", 10, 12⟩],
         .stored [⟨"t0", 0, 5⟩, ⟨"t1", 10, 12⟩]⟩ = 1.2 := by
  constructor
  · intro l
    unfold CalibrationStore.get_multiplier CalibrationStore.load
    by_cases hl : l = []
    · subst hl; simp
    · by_cases hf : (l.filter fun s => 0 < s.estimated_pct) = []
      · simp [hl, hf]
      · have hm : ((l.filter fun s => 0 < s.estimated_pct).map
            fun s => s.actual_pct / s.estimated_pct) ≠ [] := by
          simpa using hf
        simp [hl, hf, hm]
  · unfold CalibrationStore.get_multiplier CalibrationStore.load
    norm_num [List.filter]
    exact List.cons_ne_nil _ _

/-! ## Claim C7 — reload semantics and missing/corrupt files

The claim states that a missing **or** corrupt file is treated as an empty
history, so that `get_multiplier()` returns `1.0` regardless of samples
previously added in memory.  The code does this only for a corrupt file:
`_load` begins with `if self.file_path.exists():` and does nothing when the
file is missing, so the in-memory samples survive and the query returns the
mean computed from them. -/

theorem round2_ten : round2 10 = 10 := by
  unfold round2 roundHalfEven
  norm_num

theorem round2_twelve : round2 12 = 12 := by
  unfold round2 roundHalfEven
  norm_num

/-- **C7, counterexample.** Add one sample `(est = 10, act = 12)` to a fresh
store whose save fails (so the calibration file stays missing).  The claim
predicts `get_multiplier() = 1.0`; the code returns `12/10 = 6/5`, because
`_load` leaves the in-memory history untouched when the file is missing. -/
theorem c7_counterexample :
    CalibrationStore.get_multiplier
        (CalibrationStore.add_sample emptyStore "t" 10 12 false) = 6/5
    ∧ (6/5 : ℚ) ≠ 1 := by
  constructor
  · unfold CalibrationStore.add_sample emptyStore
    norm_num [MAX_SAMPLES, lastN, round2_ten, round2_twelve]
    unfold CalibrationStore.get_multiplier CalibrationStore.load
    norm_num [List.filter]
  · norm_num

/-- **C7, amended.** `get_multiplier()` reloads the history from durable
storage on every call: with a stored file the returned value depends only on
the file contents, never on the in-memory list.  A *corrupt* (unreadable,
malformed, or non-list) file is treated as an empty history, so the query
returns `1.0` regardless of samples previously added in memory.  A *missing*
file, however, leaves the in-memory history in place, so the query returns
the best-effort value computed from the samples previously added in memory —
the same value as if that history were stored on disk.  In every case the
call returns normally (the condition is recoverable, never an error to the
caller, which the embedding expresses by `get_multiplier` being total). -/
theorem c7_amended_load_semantics :
    ∀ (mem other : List Sample),
      CalibrationStore.get_multiplier ⟨mem, .corrupt⟩ = 1
      ∧ CalibrationStore.get_multiplier ⟨mem, .stored other⟩
          = CalibrationStore.get_multiplier ⟨other, .stored other⟩
      ∧ CalibrationStore.get_multiplier ⟨mem, .missing⟩
          = CalibrationStore.get_multiplier ⟨mem, .stored mem⟩ := by
  intro mem other
  refine ⟨?_, ?_, ?_⟩ <;>
    simp [CalibrationStore.get_multiplier, CalibrationStore.load]

/-! ## Claim C8 — `add_sample` never fails and always updates memory -/

/-- **C8.** `add_sample` never raises to its caller: it is modelled as a
total function over every input including the save outcome.  Whatever the
outcome of creating the config directory or writing the calibration file,
the in-memory history is updated in exactly the same way (append the rounded
sample, keep the last 20); a failed save is swallowed, leaving the durable
file exactly as it was, while a successful save persists the new history.
The subsequent multiplier query hence returns a best-effort value from the
updated in-memory history (claim C7's amended theorem spells out which). -/
theorem c8_add_sample_total_best_effort :
    ∀ (st : CalibrationStore) (ts : String) (e a : ℚ) (ok : Bool),
      (st.add_sample ts e a ok).samples
          = lastN 20 (st.samples ++ [⟨ts, round2 e, round2 a⟩])
      ∧ (st.add_sample ts e a false).samples
          = (st.add_sample ts e a true).samples
      ∧ (st.add_sample ts e a ok).file
          = (if ok then .stored ((st.add_sample ts e a ok).samples)
             else st.file) := by
  intro st ts e a ok
  refine ⟨?_, ?_, ?_⟩ <;>
    cases ok <;> simp [CalibrationStore.add_sample, MAX_SAMPLES]

/-! ## Display engine (`ui/session_display.py`)

External collaborators (the header manager, the narrow progress bars, cost
and velocity indicators, `get_cost_style`, `percentage` from the timezone
utilities, `TokenProgressBar._calculate_filled_segments` / `_render_bar`)
are out of the specified core; they enter the embedding as opaque function
parameters or as pre-computed inputs.  Rendered lines are modelled
structurally: a bar line keeps its label, bar, the (uncapped) numeric
percentage that the `:4.1f` format displays, and any trailing annotation
text. -/

/-- `_render_wide_progress_bar`: the 50-column wide bar.  `marker` is the
threshold emoji prepended to the bar, `filled_segments` the number of filled
segments handed to `_render_bar` (the glyph renderer itself is external, as
is the `get_cost_style` style lookup). -/
structure WideBar where
  marker : String
  filled_segments : ℕ
deriving DecidableEq, Repr

/-- The wide 50-char progress bar of `SessionDisplayComponent`.
`calculate_filled_segments` stands for the external
`TokenProgressBar._calculate_filled_segments(capped_percentage, 100.0)`. -/
def render_wide_progress_bar (calculate_filled_segments : ℚ → ℚ → ℕ)
    (pct : ℚ) : WideBar :=
  let color := if pct < 50 then "🟢" else if pct < 80 then "🟡" else "🔴"
  let capped_percentage := min pct 100
  let filled := calculate_filled_segments capped_percentage 100
  if 100 ≤ pct then ⟨color, 50⟩ else ⟨color, filled⟩

/-- One structurally modelled bar line of the wide layout:
`f"... [value]{label}:[/] {bar} {shownPct:4.1f}%{detail}"`. -/
structure BarLine where
  label : String
  bar : WideBar
  shownPct : ℚ
  detail : String
deriving DecidableEq, Repr

/-- A rendered screen line. -/
inductive Line where
  | blank
  | text (s : String)
  | bar (b : BarLine)
deriving DecidableEq, Repr

/-- The tiered plans of the wide rendering branch:
`plan in ["custom", "pro", "max5", "max20"]`. -/
def tieredPlans : List String := ["custom", "pro", "max5", "max20"]

/-- `cost_percentage = min(100, percentage(session_cost, cost_limit_p90)) if
cost_limit_p90 > 0 else 0`; `pct` is the external
`claude_monitor.utils.time_utils.percentage`. -/
def cost_percentage (pct : ℚ → ℚ → ℚ) (session_cost cost_limit_p90 : ℚ) : ℚ :=
  if 0 < cost_limit_p90 then min 100 (pct session_cost cost_limit_p90) else 0

/-- `messages_percentage = min(100, percentage(sent_messages,
messages_limit_p90)) if messages_limit_p90 > 0 else 0`. -/
def messages_percentage (pct : ℚ → ℚ → ℚ)
    (sent_messages messages_limit_p90 : ℚ) : ℚ :=
  if 0 < messages_limit_p90 then min 100 (pct sent_messages messages_limit_p90)
  else 0

/-- The predicted-usage line of the tiered branch, as label plus the shown
percentage (`f"⚡ [value]{usage_label}:[/]   {predicted_bar}
{predicted_pct:4.1f}% ..."`). -/
structure PredictionLine where
  usage_label : String
  predicted_pct : ℚ
deriving DecidableEq, Repr

/-- Lines 188–222 of `format_active_session_screen`: on a tiered plan with
no official usage data, predict from the max of the three breakdown metrics
and scale by the calibration multiplier when it differs from `1.0`; with
official data (or a non-tiered plan) no predicted-usage line is emitted. -/
def predicted_usage_line (plan : String) (api_usage_present : Bool)
    (cost_pct usage_pct messages_pct calibration_multiplier : ℚ) :
    Option PredictionLine :=
  if plan ∈ tieredPlans then
    if api_usage_present then none
    else
      let predicted_pct := max cost_pct (max usage_pct messages_pct)
      if calibration_multiplier ≠ 1 then
        some ⟨"Cal. Claude Usage", min 100 (predicted_pct * calibration_multiplier)⟩
      else
        some ⟨"Est. Claude Usage", predicted_pct⟩
  else none

/-- Lines 240–243: the wide token-usage bar line; the number printed after
the bar is the uncapped `usage_percentage` (`{usage_percentage:4.1f}`), the
trailing detail shows used/limit counts (thousands grouping of the `:,`
format elided). -/
def token_usage_line (calcSeg : ℚ → ℚ → ℕ) (usage_percentage : ℚ)
    (tokens_used token_limit : ℤ) : BarLine :=
  ⟨"Token Usage", render_wide_progress_bar calcSeg usage_percentage,
   usage_percentage,
   "[value]" ++ toString tokens_used ++ "[/] / [dim]"
     ++ toString token_limit ++ "[/]"⟩

/-- `_format_reset_time(resets_at)`.  The ISO-8601 parsing and the clock are
external; the embedding receives the parse outcome directly: `none` when
`datetime.fromisoformat` (or anything else in the `try` block) raises —
returning the empty annotation — and `some delta` for the signed whole-second
duration `int((reset_dt - now).total_seconds())` to the instant. -/
def format_reset_time : Option ℤ → String
  | none => ""
  | some delta =>
    let total_seconds : ℕ := (max 0 delta).toNat
    if total_seconds = 0 then "now"
    else
      let days := total_seconds / 86400
      let hours := total_seconds % 86400 / 3600
      let minutes := total_seconds % 3600 / 60
      let parts : List String := if 0 < days then [toString days ++ "d"] else []
      let parts := if 0 < hours then parts ++ [toString hours ++ "h"] else parts
      let parts := if 0 < minutes ∨ parts = [] then
        parts ++ [toString minutes ++ "m"] else parts
      "in " ++ String.intercalate " " parts

/-- One official usage window of the `api_usage` dict.  `resets_at` is
`none` when the `"resets_at"` key is absent or empty (falsy), and otherwise
carries the parse outcome fed to `_format_reset_time`. -/
structure UsageWindow where
  utilization : ℚ
  resets_at : Option (Option ℤ)
deriving DecidableEq, Repr

/-- The official usage snapshot: the `five_hour` / `seven_day` entries of
the `api_usage` dict; `none` stands for an absent key or a falsy (empty)
value, which the loop skips. -/
structure ApiUsage where
  five_hour : Option UsageWindow
  seven_day : Option UsageWindow
deriving DecidableEq, Repr

/-- The separator line `f"[separator]{'─' * 60}[/]"`. -/
def separator60 : String :=
  "[separator]" ++ String.mk (List.replicate 60 '─') ++ "[/]"

/-- The body of the `_render_api_usage` loop for one window: the displayed
percentage treats `utilization ≤ 1.0` as a fraction (scaled by 100) and
anything larger as an already-scaled percentage; the reset annotation is
added only when `resets_at` is truthy and formats to a nonempty string. -/
def window_bar_line (calcSeg : ℚ → ℚ → ℕ) (w : UsageWindow)
    (label : String) : BarLine :=
  let pct := if w.utilization ≤ 1 then w.utilization * 100 else w.utilization
  let reset_str :=
    match w.resets_at with
    | none => ""
    | some parsed =>
      let r := format_reset_time parsed
      if r ≠ "" then "    [dim]resets " ++ r ++ "[/dim]" else ""
  ⟨"Claude Usage (" ++ label ++ ")", render_wide_progress_bar calcSeg pct,
   pct, reset_str⟩

/-- One iteration of the `for window_key, label in ...` loop: a `None` or
falsy window is skipped (`continue`), a present one emits its bar line. -/
def window_line (calcSeg : ℚ → ℚ → ℕ) (window : Option UsageWindow)
    (label : String) : List Line :=
  match window with
  | none => []
  | some w => [Line.bar (window_bar_line calcSeg w label)]

/-- `_render_api_usage`: blank line, block header, the (up to two) window
bars, and a separator; modelled as the list of lines appended to the screen
buffer. -/
def render_api_usage (calcSeg : ℚ → ℚ → ℕ) (api_usage : ApiUsage) :
    List Line :=
  [Line.blank, Line.text "[bold]⚡ Claude Official Usage[/bold]"]
    ++ window_line calcSeg api_usage.five_hour "5h"
    ++ window_line calcSeg api_usage.seven_day "7d"
    ++ [Line.text separator60]

/-- The switch-notification line (thousands grouping of `:,` elided). -/
def switch_notification_line (token_limit : ℤ) : Line :=
  .text ("🔄 [warning]Token limit exceeded (" ++ toString token_limit
    ++ " tokens)[/]")

/-- The hard cost-limit-exceeded line. -/
def exceed_notification_line : Line :=
  .text "⚠️  [error]You have exceeded the maximum cost limit![/]"

/-- The will-run-out-before-reset line. -/
def run_out_notification_line : Line :=
  .text "⏰ [warning]Cost limit will be exceeded before reset![/]"

/-- `_add_notifications`: three independently gated lines — the switch
warning additionally requires `token_limit > original_limit` — followed by a
blank separator iff any line was added.  The mutated
`(screen_buffer, notifications_added)` pair is threaded explicitly. -/
def add_notifications (screen_buffer : List Line)
    (show_switch_notification show_exceed_notification
     show_tokens_will_run_out : Bool)
    (original_limit token_limit : ℤ) : List Line :=
  let acc : List Line × Bool := (screen_buffer, false)
  let acc :=
    if show_switch_notification ∧ original_limit < token_limit then
      (acc.1 ++ [switch_notification_line token_limit], true)
    else acc
  let acc :=
    if show_exceed_notification then (acc.1 ++ [exceed_notification_line], true)
    else acc
  let acc :=
    if show_tokens_will_run_out then (acc.1 ++ [run_out_notification_line], true)
    else acc
  if acc.2 then acc.1 ++ [Line.blank] else acc.1

/-! ## Claim C3 — calibrated prediction line at multiplier 1.5 -/

/-- **C3.** For every tiered-plan render (`plan ∈ {custom, pro, max5,
max20}`) with no official usage data and calibration multiplier `1.5`, the
predicted-usage line is labelled `"Cal. Claude Usage"` (not `"Est. Claude
Usage"`) and its displayed percentage is
`min(100, max(cost%, token%, msg%) * 1.5)`, where cost% and msg% are the
capped breakdown percentages computed by the same branch. -/
theorem c3_calibrated_prediction_line :
    ∀ (plan : String) (pct : ℚ → ℚ → ℚ)
      (session_cost cost_limit_p90 sent_messages messages_limit_p90
        usage_percentage : ℚ),
      plan ∈ tieredPlans →
      predicted_usage_line plan false
          (cost_percentage pct session_cost cost_limit_p90)
          usage_percentage
          (messages_percentage pct sent_messages messages_limit_p90)
          1.5
        = some ⟨"Cal. Claude Usage",
            min 100 (max (cost_percentage pct session_cost cost_limit_p90)
                (max usage_percentage
                  (messages_percentage pct sent_messages messages_limit_p90))
              * 1.5)⟩ := by
  intro plan pct sc cl sm ml up hplan
  have h15 : (1.5 : ℚ) ≠ 1 := by norm_num
  simp [predicted_usage_line, hplan, h15]

/-- Witness for C3: plan `pro`, `percentage(v, l) = v / l * 100`, cost $50 of
$100, 30 of 1500 messages, token usage 120% — the line is calibrated and
capped at 100. -/
theorem c3_calibrated_prediction_line_witness :
    predicted_usage_line "pro" false
        (cost_percentage (fun v l => v / l * 100) 50 100) 120
        (messages_percentage (fun v l => v / l * 100) 30 1500) 1.5
      = some ⟨"Cal. Claude Usage", 100⟩ := by
  have h := c3_calibrated_prediction_line "pro" (fun v l => v / l * 100)
    50 100 30 1500 120 (by decide)
  rw [h]
  norm_num [cost_percentage, messages_percentage]

/-! ## Claim C4 — wide progress bar contract -/

/-- **C4.** For every percentage `p` given to the wide progress bar: the
colour marker is 🟢 for `p < 50`, 🟡 for `50 ≤ p < 80` and 🔴 otherwise
(thresholds on the uncapped `p`); the fill is computed from `min(p, 100)`
and at `p ≥ 100` the 50-segment bar is rendered fully filled; and the
numeric percentage printed beside the bar (here for the token-usage line) is
the uncapped `p`. -/
theorem c4_wide_bar_contract :
    ∀ (calcSeg : ℚ → ℚ → ℕ) (p : ℚ) (tokens_used token_limit : ℤ),
      (p < 50 → (render_wide_progress_bar calcSeg p).marker = "🟢")
      ∧ (50 ≤ p → p < 80 → (render_wide_progress_bar calcSeg p).marker = "🟡")
      ∧ (80 ≤ p → (render_wide_progress_bar calcSeg p).marker = "🔴")
      ∧ (p < 100 → (render_wide_progress_bar calcSeg p).filled_segments
          = calcSeg (min p 100) 100)
      ∧ (100 ≤ p → (render_wide_progress_bar calcSeg p).filled_segments = 50)
      ∧ (token_usage_line calcSeg p tokens_used token_limit).shownPct = p := by
  intro calcSeg p tu tl
  refine ⟨fun h => ?_, fun h1 h2 => ?_, fun h => ?_, fun h => ?_,
    fun h => ?_, rfl⟩ <;>
  · simp only [render_wide_progress_bar]
    split_ifs <;> first | rfl | (exfalso; linarith)

/-- Witness for C4 at `p = 134`: red marker, fully filled bar, and the
uncapped `134` printed beside it. -/
theorem c4_wide_bar_contract_witness :
    (render_wide_progress_bar (fun _ _ => 0) 134).marker = "🔴"
    ∧ (render_wide_progress_bar (fun _ _ => 0) 134).filled_segments = 50
    ∧ (token_usage_line (fun _ _ => 0) 134 500 300).shownPct = 134 := by
  have h := c4_wide_bar_contract (fun _ _ => 0) 134 500 300
  exact ⟨h.2.2.1 (by norm_num), h.2.2.2.2.1 (by norm_num), h.2.2.2.2.2⟩

/-! ## Claim C5 — reset-time formatting

The claim's zero/past behaviour, unit selection and malformed-input
behaviour all match the code, but the code prefixes every non-`"now"`
duration with `"in "`: 25 hours ahead renders `"in 1d 1h"`, not `"1d 1h"`
(the full annotation being `"resets in 1d 1h"`). -/

/-- **C5, counterexample.** A reset instant 25 hours (90000 seconds) in the
future renders `"in 1d 1h"`, not the claimed bare `"1d 1h"`. -/
theorem c5_counterexample :
    format_reset_time (some 90000) = "in 1d 1h"
    ∧ format_reset_time (some 90000) ≠ "1d 1h" := by
  constructor <;> decide

/-- **C5, amended.** A malformed timestamp yields the empty annotation; an
instant that has passed or whose duration truncates to zero seconds renders
`"now"`; any positive duration renders `"in "` followed by the applicable
units among days/hours/minutes — each unit omitted when zero, except that
minutes are always included when days and hours are both zero — so 0 seconds
ahead renders `"now"`, 25 hours renders `"in 1d 1h"`, 45 minutes renders
`"in 45m"`. -/
theorem c5_amended_reset_time_formatting :
    format_reset_time none = ""
    ∧ (∀ d : ℤ, d ≤ 0 → format_reset_time (some d) = "now")
    ∧ format_reset_time (some 0) = "now"
    ∧ format_reset_time (some 90000) = "in 1d 1h"
    ∧ format_reset_time (some 2700) = "in 45m"
    ∧ ∀ t : ℕ, 0 < t →
        format_reset_time (some (t : ℤ))
          = "in " ++ String.intercalate " "
              ((if 0 < t / 86400 then [toString (t / 86400) ++ "d"] else [])
                ++ (if 0 < t % 86400 / 3600 then
                      [toString (t % 86400 / 3600) ++ "h"] else [])
                ++ (if 0 < t % 3600 / 60
                      ∨ (t / 86400 = 0 ∧ t % 86400 / 3600 = 0) then
                      [toString (t % 3600 / 60) ++ "m"] else [])) := by
  refine ⟨rfl, ?_, by decide, by decide, by decide, ?_⟩
  · intro d hd
    have h0 : (max 0 d).toNat = 0 := by
      simp only [Int.toNat_eq_zero]
      exact max_le le_rfl hd
    simp [format_reset_time, h0]
  · intro t ht
    have hmax : (max 0 (t : ℤ)).toNat = t := by
      rw [max_eq_right (by positivity)]
      exact Int.toNat_natCast t
    have ht0 : ¬ ((max 0 (t : ℤ)).toNat = 0) := by omega
    simp only [format_reset_time, hmax] at ht0 ⊢
    rw [if_neg ht0]
    by_cases hd : t / 86400 = 0 <;> by_cases hh : t % 86400 / 3600 = 0 <;>
      by_cases hm : t % 3600 / 60 = 0 <;>
        simp [hd, hh, hm, Nat.pos_iff_ne_zero]

/-- Witness for C5 (amended): a passed instant renders `"now"`, and one hour
five minutes ahead renders `"in 1h 5m"`. -/
theorem c5_amended_reset_time_formatting_witness :
    format_reset_time (some (-7)) = "now"
    ∧ format_reset_time (some 3900) = "in 1h 5m" := by
  have h := c5_amended_reset_time_formatting
  refine ⟨h.2.1 (-7) (by norm_num), ?_⟩
  have h2 := h.2.2.2.2.2 3900 (by norm_num)
  norm_num at h2
  exact h2.trans (by decide)

/-! ## Claim C6 — notifications block trailing blank line

The claim says the trailing blank line appears iff at least one of the three
notification *flags* is true.  The code gates the first line on
`show_switch_notification and token_limit > original_limit`, and the blank
line on a notification line having actually been added; with only
`show_switch_notification` set and `token_limit ≤ original_limit` nothing at
all is appended although a flag is true. -/

/-- **C6, counterexample.** `show_switch_notification = True`,
the other flags false, `original_limit = token_limit = 5`: one of the three
notification flags is true, yet the notifications block appends nothing —
no notification line and no trailing blank line. -/
theorem c6_counterexample :
    add_notifications [] true false false 5 5 = []
    ∧ (true || false || false) = true := by
  constructor
  · decide
  · rfl

/-- **C6, amended.** The notifications block appends the three lines of its
fired conditions — the switch warning fires only when its flag is set *and*
`token_limit > original_limit`, the other two exactly when their flags are
set — followed by a trailing blank line iff at least one condition fired;
when none fired (in particular when all three flags are false) nothing at
all is appended. -/
theorem c6_amended_notifications_blank_line :
    ∀ (buf : List Line) (s1 s2 s3 : Bool) (original_limit token_limit : ℤ),
      add_notifications buf s1 s2 s3 original_limit token_limit
        = buf
          ++ (if s1 ∧ original_limit < token_limit then
                [switch_notification_line token_limit] else [])
          ++ (if s2 then [exceed_notification_line] else [])
          ++ (if s3 then [run_out_notification_line] else [])
          ++ (if (s1 ∧ original_limit < token_limit) ∨ s2 = true ∨ s3 = true
              then [Line.blank] else []) := by
  intro buf s1 s2 s3 ol tl
  cases s1 <;> cases s2 <;> cases s3 <;>
    by_cases h : ol < tl <;>
      simp [add_notifications, h, List.append_assoc]

/-! ## Claim C9 — multiplier gating and individual caps -/

/-- **C9.** In the tiered-plan render without official usage data the
scaling, the cap at 100 and the `"Cal. Claude Usage"` relabel are applied
iff the supplied calibration multiplier differs from exactly `1.0`; with
multiplier exactly `1.0` the label stays `"Est. Claude Usage"` and the
displayed `max(cost%, token%, msg%)` is not capped, and it can exceed 100
only through the token percentage, because cost% and msg% are each capped at
100 individually (and forced to 0 when their limit is ≤ 0) before the max is
taken. -/
theorem c9_multiplier_gating_and_caps :
    ∀ (pct : ℚ → ℚ → ℚ) (plan : String)
      (session_cost cost_limit_p90 sent_messages messages_limit_p90
        usage_percentage mult : ℚ),
      plan ∈ tieredPlans →
      (mult ≠ 1 →
        predicted_usage_line plan false
            (cost_percentage pct session_cost cost_limit_p90)
            usage_percentage
            (messages_percentage pct sent_messages messages_limit_p90) mult
          = some ⟨"Cal. Claude Usage",
              min 100 (max (cost_percentage pct session_cost cost_limit_p90)
                  (max usage_percentage
                    (messages_percentage pct sent_messages messages_limit_p90))
                * mult)⟩)
      ∧ (mult = 1 →
        predicted_usage_line plan false
            (cost_percentage pct session_cost cost_limit_p90)
            usage_percentage
            (messages_percentage pct sent_messages messages_limit_p90) mult
          = some ⟨"Est. Claude Usage",
              max (cost_percentage pct session_cost cost_limit_p90)
                (max usage_percentage
                  (messages_percentage pct sent_messages
                    messages_limit_p90))⟩)
      ∧ cost_percentage pct session_cost cost_limit_p90 ≤ 100
      ∧ messages_percentage pct sent_messages messages_limit_p90 ≤ 100
      ∧ (cost_limit_p90 ≤ 0 →
          cost_percentage pct session_cost cost_limit_p90 = 0)
      ∧ (messages_limit_p90 ≤ 0 →
          messages_percentage pct sent_messages messages_limit_p90 = 0)
      ∧ (100 < max (cost_percentage pct session_cost cost_limit_p90)
            (max usage_percentage
              (messages_percentage pct sent_messages messages_limit_p90)) →
          100 < usage_percentage) := by
  intro pct plan sc cl sm ml up mult hplan
  have hcp : cost_percentage pct sc cl ≤ 100 := by
    unfold cost_percentage
    split_ifs <;> simp [min_le_left]
  have hmp : messages_percentage pct sm ml ≤ 100 := by
    unfold messages_percentage
    split_ifs <;> simp [min_le_left]
  refine ⟨fun hm => ?_, fun hm => ?_, hcp, hmp, fun hl => ?_, fun hl => ?_,
    fun hgt => ?_⟩
  · simp [predicted_usage_line, hplan, hm]
  · simp [predicted_usage_line, hplan, hm]
  · unfold cost_percentage
    rw [if_neg (by linarith)]
  · unfold messages_percentage
    rw [if_neg (by linarith)]
  · by_contra hup
    push_neg at hup
    have : max (cost_percentage pct sc cl)
        (max up (messages_percentage pct sm ml)) ≤ 100 :=
      max_le hcp (max_le hup hmp)
    linarith

/-- Witness for C9: plan `custom`, multiplier exactly `1.0`, token usage
120% — the label stays `"Est. Claude Usage"` and the shown value is the
uncapped 120. -/
theorem c9_multiplier_gating_and_caps_witness :
    predicted_usage_line "custom" false
        (cost_percentage (fun v l => v / l * 100) 50 100) 120
        (messages_percentage (fun v l => v / l * 100) 30 1500) 1
      = some ⟨"Est. Claude Usage", 120⟩ := by
  have h := c9_multiplier_gating_and_caps (fun v l => v / l * 100) "custom"
    50 100 30 1500 120 1 (by decide)
  rw [h.2.1 rfl]
  norm_num [cost_percentage, messages_percentage]

/-! ## Claim C10 — official usage window rendering -/

/-- **C10.** When rendering official usage windows, a present window with
utilization `u` is displayed as `u * 100` percent when `u ≤ 1.0` and as `u`
unchanged when `u > 1.0` (so `u = 1.0` displays as `100.0%` but `u = 1.5`
displays as `1.5%`), while an absent or falsy window is skipped without
rendering a bar. -/
theorem c10_official_usage_window_rendering :
    ∀ (calcSeg : ℚ → ℚ → ℕ) (w : UsageWindow) (lbl : String),
      window_line calcSeg none lbl = []
      ∧ window_line calcSeg (some w) lbl
          = [Line.bar (window_bar_line calcSeg w lbl)]
      ∧ (window_bar_line calcSeg w lbl).shownPct
          = (if w.utilization ≤ 1 then w.utilization * 100 else w.utilization)
      ∧ (window_bar_line calcSeg ⟨1, none⟩ lbl).shownPct = 100
      ∧ (window_bar_line calcSeg ⟨3/2, none⟩ lbl).shownPct = 3/2
      ∧ render_api_usage calcSeg ⟨none, none⟩
          = [Line.blank, Line.text "[bold]⚡ Claude Official Usage[/bold]",
             Line.text separator60] := by
  intro calcSeg w lbl
  refine ⟨rfl, rfl, rfl, ?_, ?_, ?_⟩
  · norm_num [window_bar_line]
  · norm_num [window_bar_line]
  · simp [render_api_usage, window_line]
